import Mathlib

/-!
# bearparser: the executable commander (commander/ExeCommander.h)

A shallow embedding of the command classes of `ExeCommander.h`.

* Pointers are `Option` values over addresses (`none` is `NULL`).
* The parser library the commands call into (`Executable`, `MappedExe`,
  `ExeElementWrapper`, `ExeNodeWrapper`, `FileBuffer`, the `cmd_util` helpers)
  is not part of this header: it is taken as the record `Externals`, over an
  arbitrary type `σ` of parser-side state.
* A command is a function on a `World`: the parser-side state, the pending
  console input, the log of everything the command printed or called, and a
  status that records the dereference of a null pointer.
-/

namespace BearParser

/-! ## Values -/

/-- The address kinds of `Executable::addr_type` used by the header. -/
inductive addr_type
  | RAW
  | RVA
  | VA
deriving DecidableEq

/-- A non-null `Executable*`. -/
abbrev ExePtr := Nat

/-- A non-null `ExeElementWrapper*` (or `ExeNodeWrapper*`). -/
abbrev WrapperPtr := Nat

/-- What a command does that is visible from outside: what it prints, what it
reads, and each call it makes into the parser library. -/
inductive Event
  | stdout (s : String)
  | stderr (s : String)
  | readOffset (t : addr_type)
  | readNumber (prompt : String)
  | scanfUnsigned
  | getBitMode (exe : ExePtr)
  | getEntryPoint (exe : ExePtr)
  | getMappedSize (exe : ExePtr) (t : addr_type)
  | getAlignment (exe : ExePtr) (t : addr_type)
  | convertAddr (exe : ExePtr) (offset : Nat) (addrFrom addrTo : addr_type)
  | fetch (exe : Option ExePtr) (offset : Nat) (t : addr_type) (hex : Bool)
  | printWrapperNames (exe : ExePtr)
  | getWrapper (exe : ExePtr) (id : Int)
  | canAddEntry (w : WrapperPtr)
  | addEntry (w : WrapperPtr) (template : Option WrapperPtr)
  | getEntryAt (w : WrapperPtr) (index : Nat)
  | dumpEntryInfo (w : Option WrapperPtr)
  | dumpNodeInfo (w : Option WrapperPtr)
  | fillContent (w : WrapperPtr) (filling : Nat)
  | wrap (exe : ExePtr)
  | dumpWrapper (fileName : String) (w : WrapperPtr)
  | dumpExe (fileName : String) (exe : ExePtr)
deriving DecidableEq

/-- Whether the command is still running normally or has dereferenced `NULL`. -/
inductive Status
  | running
  | nullDeref
deriving DecidableEq

/-- The state a command runs in. -/
structure World (σ : Type) where
  heap : σ
  input : List Nat
  log : List Event
  status : Status
deriving DecidableEq

/-- Append one event to the log. -/
def emit {σ : Type} (e : Event) (w : World σ) : World σ :=
  { w with log := w.log ++ [e] }

/-- The parser library and the `cmd_util` helpers, which the header only
declares or includes. A query is a function of the parser-side state; the three calls
that change it (`wrap`, `fillContent`, `addEntry`) return the state after the call.
The print helpers `printWrapperNames`, `dumpEntryInfo`, `dumpNodeInfo` and `fetch`
appear in the log only. -/
structure Externals (σ : Type) where
  /-- The sentinel `INVALID_ADDR`. -/
  INVALID_ADDR : Nat
  /-- The width in bits of `unsigned long` on the platform. -/
  ulongBits : Nat
  /-- The text of the diagnostic for a context without a selected executable. -/
  noExeDiagnostic : String
  addrTypeToChar : addr_type → Char
  addrTypeToStr : addr_type → String
  /-- Console helper `cmd_util::readOffset`: the value read and the input left. -/
  readOffset : List Nat → addr_type → Nat × List Nat
  /-- Console helper `cmd_util::readNumber`: the value read and the input left. -/
  readNumber : List Nat → String → Nat × List Nat
  /-- Whether `dynamic_cast<MappedExe*>` succeeds on the executable. -/
  isMappedExe : ExePtr → Bool
  /-- Whether `dynamic_cast<ExeNodeWrapper*>` succeeds on the wrapper. -/
  isNodeWrapper : WrapperPtr → Bool
  getBitMode : σ → ExePtr → Nat
  getEntryPoint : σ → ExePtr → Nat
  getMappedSize : σ → ExePtr → addr_type → Nat
  getAlignment : σ → ExePtr → addr_type → Nat
  convertAddr : σ → ExePtr → Nat → addr_type → addr_type → Nat
  getWrapper : σ → ExePtr → Int → Option WrapperPtr
  wrap : σ → ExePtr → σ
  /-- The back-reference `ExeElementWrapper::getExe`. -/
  getExe : σ → WrapperPtr → Option ExePtr
  fillContent : σ → WrapperPtr → Nat → Bool × σ
  canAddEntry : σ → WrapperPtr → Bool
  addEntry : σ → WrapperPtr → Option WrapperPtr → Bool × σ
  getEntryAt : σ → WrapperPtr → Nat → Option WrapperPtr
  /-- The number of bytes `FileBuffer::dump` writes for a wrapper. -/
  dumpWrapperSize : σ → String → WrapperPtr → Nat
  /-- The number of bytes `FileBuffer::dump` writes for an executable. -/
  dumpExeSize : σ → String → ExePtr → Nat

/-! ## printf conversions -/

/-- One upper-case hexadecimal digit. -/
def hexDigit (d : Nat) : Char :=
  if d < 10 then Char.ofNat (48 + d) else Char.ofNat (55 + d)

/-- The digits of `n` in base 16, most significant first, in front of `acc`. -/
def hexAux : Nat → Nat → List Char → List Char
  | 0, _, acc => acc
  | fuel + 1, n, acc =>
    if n < 16 then hexDigit n :: acc
    else hexAux fuel (n / 16) (hexDigit (n % 16) :: acc)

/-- The conversion `%X`: upper-case hexadecimal without leading zeros. -/
def hexUpper (n : Nat) : List Char := hexAux (n + 1) n []

/-- A minimum field width: right-aligned, padded with blanks on the left. -/
def padLeft (width : Nat) (s : List Char) : List Char :=
  List.replicate (width - s.length) ' ' ++ s

/-- The conversion `%10llX` applied to `static_cast<unsigned long long>(v)`. -/
def fmt10llX (v : Nat) : List Char := padLeft 10 (hexUpper (v % 2 ^ 64))

/-- The conversion `%llX` applied to `static_cast<unsigned long long>(v)`. -/
def fmtllX (v : Nat) : List Char := hexUpper (v % 2 ^ 64)

/-- The conversion `%10lX` applied to `static_cast<unsigned long>(v)`. -/
def fmt10lX (ulongBits : Nat) (v : Nat) : List Char :=
  padLeft 10 (hexUpper (v % 2 ^ ulongBits))

/-- The conversion `%lu` applied to `static_cast<unsigned long>(v)`. -/
def fmtlu (ulongBits : Nat) (v : Nat) : List Char :=
  (Nat.repr (v % 2 ^ ulongBits)).toList

/-- The conversion `%10d` applied to `static_cast<unsigned>(v)`, read back as `int`. -/
def fmt10d (v : Nat) : List Char :=
  let u : Nat := v % 2 ^ 32
  let i : Int := if u < 2 ^ 31 then (u : Int) else (u : Int) - 2 ^ 32
  padLeft 10 (toString i).toList

/-- The value of one upper-case hexadecimal digit character. -/
def hexDigitValue (c : Char) : Nat :=
  if c.toNat < 58 then c.toNat - 48 else c.toNat - 55

/-- Read a string of hexadecimal digits back as a number. -/
def hexValue (s : List Char) : Nat :=
  s.foldl (fun acc c => 16 * acc + hexDigitValue c) 0

/-- The conversion of a `size_t` to `int`: the low 32 bits, read as signed. -/
def toInt32 (n : Nat) : Int :=
  let m : Nat := n % 2 ^ 32
  if m < 2 ^ 31 then (m : Int) else (m : Int) - 2 ^ 32

/-! ## The command context -/

/-- The class `ExeCmdContext`: the currently selected executable, or `NULL`. -/
structure ExeCmdContext where
  exe : Option ExePtr
deriving DecidableEq

/-- The constructor `ExeCmdContext() : exe(NULL)`. -/
def ExeCmdContext.new : ExeCmdContext := { exe := none }

/-- The method `ExeCmdContext::setExe`. -/
def ExeCmdContext.setExe (c : ExeCmdContext) (v_exe : Option ExePtr) : ExeCmdContext :=
  { c with exe := v_exe }

/-- The method `ExeCmdContext::getExe`. -/
def ExeCmdContext.getExe (c : ExeCmdContext) : Option ExePtr := c.exe

/-- An `ExeCmdContext*` that is not `NULL`. -/
abbrev CtxPtr := Nat

/-- The contexts that are alive, by address. -/
abbrev CtxStore := CtxPtr → Option ExeCmdContext

/-- The class `ExeCommander`: it keeps the pointer it was constructed with, both in
the base class `Commander` and in its own member `exeContext`. -/
structure ExeCommander where
  context : Option CtxPtr
  exeContext : Option CtxPtr
deriving DecidableEq

/-- The constructor `ExeCommander(ExeCmdContext *v_context)`. The call of
`initCommands()` fills the command registry, which is not modelled. -/
def ExeCommander.new (v_context : Option CtxPtr) : ExeCommander :=
  { context := v_context, exeContext := v_context }

/-- The method `ExeCommander::setExe`, which is `exeContext->setExe(exe)`: the
store afterwards, or `none` when `exeContext` points to no context. -/
def ExeCommander.setExe (c : ExeCommander) (exe : Option ExePtr) (store : CtxStore) :
    Option CtxStore :=
  match c.exeContext with
  | none => none
  | some p =>
    match store p with
    | none => none
    | some ctx => some (Function.update store p (some (ctx.setExe exe)))

/-- Modelled from the spec: `cmd_util::getExeFromContext`, which the header declares
and does not define. The spec has a command pull the current executable out of the
shared context, which exposes `getExe`; and where the context lacks a selected
executable, a command that requires one must no-op with a diagnostic rather than
dereference an absent value. The helper therefore never hands a null pointer to the
command: it gives the selected executable, or `none` when there is none to give, in
which case the command ends there with `reportNoExe`. -/
def getExeFromContext (ctx : ExeCmdContext) : Option ExePtr := ctx.getExe

/-- Modelled from the spec: the end of a command whose call of
`cmd_util::getExeFromContext` found no selected executable. The command is a no-op
with a diagnostic: the diagnostic goes to the error stream and nothing else happens. -/
def reportNoExe {σ : Type} (X : Externals σ) (w : World σ) : World σ :=
  emit (Event.stderr X.noExeDiagnostic) w

/-- The helper `cmd_util::getMappedExeFromContext`:
`dynamic_cast<MappedExe*>(getExeFromContext(ctx))`, for a context in which
`getExeFromContext` finds an executable: `none` is the null pointer of a failed cast. -/
def getMappedExeFromContext {σ : Type} (X : Externals σ) (ctx : ExeCmdContext) :
    Option ExePtr :=
  match getExeFromContext ctx with
  | none => none
  | some e => if X.isMappedExe e then some e else none

/-! ## Commands on the executable -/

/-- The class `ConvertAddrCommand`. -/
structure ConvertAddrCommand where
  desc : String
  addrFrom : addr_type
  addrTo : addr_type

/-- The method `ConvertAddrCommand::execute`. -/
def ConvertAddrCommand.execute {σ : Type} (X : Externals σ) (c : ConvertAddrCommand)
    (ctx : ExeCmdContext) (w : World σ) : World σ :=
  match getExeFromContext ctx with
  | none => reportNoExe X w
  | some e =>
    let r := X.readOffset w.input c.addrFrom
    let offset := r.1
    let w1 := emit (Event.readOffset c.addrFrom) { w with input := r.2 }
    let outOffset := X.convertAddr w1.heap e offset c.addrFrom c.addrTo
    let w2 := emit (Event.convertAddr e offset c.addrFrom c.addrTo) w1
    if outOffset = X.INVALID_ADDR then
      emit (Event.stderr "This address cannot be mapped\n") w2
    else
      let inAddr := X.addrTypeToStr c.addrFrom
      let outAddr := X.addrTypeToStr c.addrTo
      let w3 := emit (Event.stdout ("[" ++ inAddr ++ "]\t->\t[" ++ outAddr ++ "]:\n")) w2
      emit (Event.stdout (" " ++ String.mk (fmtllX offset) ++ "\t->\t"
        ++ String.mk (fmtllX outOffset) ++ "\n")) w3

/-- The class `FetchCommand`. -/
structure FetchCommand where
  desc : String
  isHex : Bool
  addrType : addr_type

/-- The method `FetchCommand::execute`. -/
def FetchCommand.execute {σ : Type} (X : Externals σ) (c : FetchCommand)
    (ctx : ExeCmdContext) (w : World σ) : World σ :=
  match getExeFromContext ctx with
  | none => reportNoExe X w
  | some e =>
    let r := X.readOffset w.input c.addrType
    let w1 := emit (Event.readOffset c.addrType) { w with input := r.2 }
    emit (Event.fetch (some e) r.1 c.addrType c.isHex) w1

/-- The method `ExeInfoCommand::execute`. -/
def ExeInfoCommand.execute {σ : Type} (X : Externals σ) (ctx : ExeCmdContext)
    (w : World σ) : World σ :=
  match getExeFromContext ctx with
  | none => reportNoExe X w
  | some e =>
    let w1 := emit (Event.getBitMode e) w
    let w2 := emit (Event.stdout ("Bit mode: \t"
      ++ String.mk (fmt10d (X.getBitMode w.heap e)) ++ "\n")) w1
    let entryPoint := X.getEntryPoint w.heap e
    let w3 := emit (Event.getEntryPoint e) w2
    let w4 := emit (Event.stdout ("Entry point: \t[" ++ String.mk (fmt10llX entryPoint)
      ++ " " ++ String.mk [X.addrTypeToChar addr_type.RVA] ++ "]\n")) w3
    let w5 := emit (Event.getMappedSize e addr_type.RAW) w4
    let w6 := emit (Event.stdout ("Raw size: \t["
      ++ String.mk (fmt10lX X.ulongBits (X.getMappedSize w.heap e addr_type.RAW)) ++ "]\n")) w5
    let w7 := emit (Event.getAlignment e addr_type.RAW) w6
    let w8 := emit (Event.stdout ("Raw align.: \t["
      ++ String.mk (fmt10lX X.ulongBits (X.getAlignment w.heap e addr_type.RAW)) ++ "]\n")) w7
    let w9 := emit (Event.getMappedSize e addr_type.RVA) w8
    let w10 := emit (Event.stdout ("Virtual size: \t["
      ++ String.mk (fmt10lX X.ulongBits (X.getMappedSize w.heap e addr_type.RVA)) ++ "]\n")) w9
    let w11 := emit (Event.getAlignment e addr_type.RVA) w10
    let w12 := emit (Event.stdout ("Virtual align.:\t["
      ++ String.mk (fmt10lX X.ulongBits (X.getAlignment w.heap e addr_type.RVA)) ++ "]\n")) w11
    match getMappedExeFromContext X ctx with
    | none => w12
    | some mappedExe =>
      emit (Event.printWrapperNames mappedExe) (emit (Event.stdout "Contains:\n") w12)

/-- The class `SaveExeToFileCommand`; its constructor sets the file name. -/
structure SaveExeToFileCommand where
  desc : String
  fileName : String

/-- The constructor `SaveExeToFileCommand(desc)`. -/
def SaveExeToFileCommand.new (desc : String) : SaveExeToFileCommand :=
  { desc := desc, fileName := "dumped.exe" }

/-- The method `SaveExeToFileCommand::execute`. -/
def SaveExeToFileCommand.execute {σ : Type} (X : Externals σ) (c : SaveExeToFileCommand)
    (ctx : ExeCmdContext) (w : World σ) : World σ :=
  match getExeFromContext ctx with
  | none => reportNoExe X w
  | some e =>
    let dSize := X.dumpExeSize w.heap c.fileName e
    let w1 := emit (Event.dumpExe c.fileName e) w
    emit (Event.stdout ("Dumped size: " ++ String.mk (fmtlu X.ulongBits dSize)
      ++ " into: " ++ c.fileName ++ "\n")) w1

/-! ## Commands on a numbered wrapper -/

/-- The class `WrapperCommand`: the description and the wrapper id. -/
structure WrapperCommand where
  desc : String
  wrapperId : Int
deriving DecidableEq

/-- The constructor `WrapperCommand(desc, v_wrapperId)`. -/
def WrapperCommand.new (desc : String) (v_wrapperId : Int) : WrapperCommand :=
  { desc := desc, wrapperId := v_wrapperId }

/-- The constructor `WrapperCommand(desc)`, with the default argument `-1`. -/
def WrapperCommand.newDefault (desc : String) : WrapperCommand :=
  WrapperCommand.new desc (-1)

/-- The method `WrapperCommand::execute`, over the virtual `wrapperAction`. -/
def WrapperCommand.execute {σ : Type} (X : Externals σ)
    (wrapperAction : Option WrapperPtr → World σ → World σ)
    (c : WrapperCommand) (ctx : ExeCmdContext) (w : World σ) : World σ :=
  match getExeFromContext ctx with
  | none => reportNoExe X w
  | some _ =>
    match getMappedExeFromContext X ctx with
    | none => w
    | some mappedExe =>
      let r : Int × World σ :=
        if c.wrapperId = -1 then
          let w1 := emit (Event.printWrapperNames mappedExe) w
          let n := X.readNumber w1.input "wrapperNum"
          (toInt32 n.1, emit (Event.readNumber "wrapperNum") { w1 with input := n.2 })
        else (c.wrapperId, w)
      let wrId := r.1
      let wrapper := X.getWrapper r.2.heap mappedExe wrId
      let w2 := emit (Event.getWrapper mappedExe wrId) r.2
      match wrapper with
      | none => emit (Event.stdout "No such wrapper!\n") w2
      | some p => wrapperAction (some p) w2

/-- The first part of `WrapperCommand::execute` on a mapped executable, up to and
including the call of `getWrapper`: the resolved wrapper id and the state after it. -/
def WrapperCommand.resolve {σ : Type} (X : Externals σ) (c : WrapperCommand)
    (mappedExe : ExePtr) (w : World σ) : Int × World σ :=
  let r : Int × World σ :=
    if c.wrapperId = -1 then
      let w1 := emit (Event.printWrapperNames mappedExe) w
      let n := X.readNumber w1.input "wrapperNum"
      (toInt32 n.1, emit (Event.readNumber "wrapperNum") { w1 with input := n.2 })
    else (c.wrapperId, w)
  (r.1, emit (Event.getWrapper mappedExe r.1) r.2)

/-- The class `AddEntryCommand`. -/
structure AddEntryCommand where
  base : WrapperCommand
deriving DecidableEq

/-- The constructor `AddEntryCommand(desc, v_wrapperId)`. -/
def AddEntryCommand.new (desc : String) (v_wrapperId : Int) : AddEntryCommand :=
  { base := WrapperCommand.new desc v_wrapperId }

/-- The method `AddEntryCommand::wrapperAction`. -/
def AddEntryCommand.wrapperAction {σ : Type} (X : Externals σ)
    (wrapper : Option WrapperPtr) (w : World σ) : World σ :=
  match wrapper with
  | none => emit (Event.stderr "Invalid Wrapper\n") w
  | some p =>
    if X.isNodeWrapper p = false then
      emit (Event.stderr "This wrapper stores no entries!\n") w
    else
      let w1 := emit (Event.canAddEntry p) w
      if X.canAddEntry w.heap p = false then
        emit (Event.stdout "No space to add entry\n") w1
      else
        let r := X.addEntry w1.heap p none
        let w2 := emit (Event.addEntry p none) { w1 with heap := r.2 }
        if r.1 then emit (Event.stdout "Added!\n") w2
        else emit (Event.stdout "Failed!\n") w2

/-- The method `execute` that `AddEntryCommand` inherits. -/
def AddEntryCommand.execute {σ : Type} (X : Externals σ) (c : AddEntryCommand)
    (ctx : ExeCmdContext) (w : World σ) : World σ :=
  WrapperCommand.execute X (AddEntryCommand.wrapperAction X) c.base ctx w

/-- The class `DumpWrapperCommand`. -/
structure DumpWrapperCommand where
  base : WrapperCommand
deriving DecidableEq

/-- The constructor `DumpWrapperCommand(desc, v_wrapperId)`. -/
def DumpWrapperCommand.new (desc : String) (v_wrapperId : Int) : DumpWrapperCommand :=
  { base := WrapperCommand.new desc v_wrapperId }

/-- The method `DumpWrapperCommand::wrapperAction`. -/
def DumpWrapperCommand.wrapperAction {σ : Type} (X : Externals σ)
    (wrapper : Option WrapperPtr) (w : World σ) : World σ :=
  match wrapper with
  | none => w
  | some p =>
    let w1 := emit (Event.dumpEntryInfo (some p)) w
    emit (Event.dumpNodeInfo (if X.isNodeWrapper p then some p else none)) w1

/-- The method `execute` that `DumpWrapperCommand` inherits. -/
def DumpWrapperCommand.execute {σ : Type} (X : Externals σ) (c : DumpWrapperCommand)
    (ctx : ExeCmdContext) (w : World σ) : World σ :=
  WrapperCommand.execute X (DumpWrapperCommand.wrapperAction X) c.base ctx w

/-- The class `DumpWrapperEntriesCommand`: next to the member `wrapperId` of the
base class it declares a member `wrapperId` of its own. -/
structure DumpWrapperEntriesCommand where
  base : WrapperCommand
  wrapperId : Int
deriving DecidableEq

/-- The constructor `DumpWrapperEntriesCommand(desc, v_wrapperId)`, with the
initialisers `WrapperCommand(desc), wrapperId(v_wrapperId)`. -/
def DumpWrapperEntriesCommand.new (desc : String) (v_wrapperId : Int) :
    DumpWrapperEntriesCommand :=
  { base := WrapperCommand.newDefault desc, wrapperId := v_wrapperId }

/-- The call `scanf("%u", &num)` on `num = 0`: the number read and the input
left; `num` keeps its value when there is nothing to read. -/
def scanfUnsigned (input : List Nat) : Nat × List Nat :=
  match input with
  | [] => (0, [])
  | n :: rest => (n % 2 ^ 32, rest)

/-- The method `DumpWrapperEntriesCommand::wrapperAction`. -/
def DumpWrapperEntriesCommand.wrapperAction {σ : Type} (X : Externals σ)
    (wrapper : Option WrapperPtr) (w : World σ) : World σ :=
  match wrapper with
  | none => emit (Event.stderr "Invalid Wrapper\n") w
  | some p =>
    if X.isNodeWrapper p = false then
      emit (Event.stderr "This wrapper have no entries!\n") w
    else
      let w1 := emit (Event.dumpEntryInfo (some p)) w
      let w2 := emit (Event.stdout "Dump subentries of Index: ") w1
      let r := scanfUnsigned w2.input
      let num := r.1
      let w3 := emit Event.scanfUnsigned { w2 with input := r.2 }
      let lib := X.getEntryAt w3.heap p num
      let w4 := emit (Event.getEntryAt p num) w3
      let w5 := emit (Event.dumpEntryInfo lib) w4
      emit (Event.dumpNodeInfo lib) w5

/-- The method `execute` that `DumpWrapperEntriesCommand` inherits: it reads
the member `wrapperId` of the base class. -/
def DumpWrapperEntriesCommand.execute {σ : Type} (X : Externals σ)
    (c : DumpWrapperEntriesCommand) (ctx : ExeCmdContext) (w : World σ) : World σ :=
  WrapperCommand.execute X (DumpWrapperEntriesCommand.wrapperAction X) c.base ctx w

/-- The class `ClearWrapperCommand`. -/
structure ClearWrapperCommand where
  base : WrapperCommand
deriving DecidableEq

/-- The constructor `ClearWrapperCommand(desc, v_wrapperId)`. -/
def ClearWrapperCommand.new (desc : String) (v_wrapperId : Int) : ClearWrapperCommand :=
  { base := WrapperCommand.new desc v_wrapperId }

/-- The method `ClearWrapperCommand::wrapperAction`. -/
def ClearWrapperCommand.wrapperAction {σ : Type} (X : Externals σ)
    (wrapper : Option WrapperPtr) (w : World σ) : World σ :=
  match wrapper with
  | none => w
  | some p =>
    let filling : Nat := 0
    let r := X.fillContent w.heap p filling
    let w1 := emit (Event.fillContent p filling) { w with heap := r.2 }
    if r.1 then
      let w2 := emit (Event.stdout "Filled!\n") w1
      match X.getExe w2.heap p with
      | none => w2
      | some e =>
        if X.isMappedExe e then
          emit (Event.wrap e) { w2 with heap := X.wrap w2.heap e }
        else w2
    else
      emit (Event.stdout "Failed to fill...\n") w1

/-- The method `execute` that `ClearWrapperCommand` inherits. -/
def ClearWrapperCommand.execute {σ : Type} (X : Externals σ) (c : ClearWrapperCommand)
    (ctx : ExeCmdContext) (w : World σ) : World σ :=
  WrapperCommand.execute X (ClearWrapperCommand.wrapperAction X) c.base ctx w

/-- The class `DumpWrapperToFileCommand`. -/
structure DumpWrapperToFileCommand where
  base : WrapperCommand
  fileName : String
deriving DecidableEq

/-- The constructor `DumpWrapperToFileCommand(desc, v_wrapperId)`. -/
def DumpWrapperToFileCommand.new (desc : String) (v_wrapperId : Int) :
    DumpWrapperToFileCommand :=
  { base := WrapperCommand.new desc v_wrapperId, fileName := "dumped.txt" }

/-- The method `DumpWrapperToFileCommand::wrapperAction`: it binds `*wrapper`
without a test. -/
def DumpWrapperToFileCommand.wrapperAction {σ : Type} (X : Externals σ)
    (c : DumpWrapperToFileCommand) (wrapper : Option WrapperPtr) (w : World σ) : World σ :=
  match wrapper with
  | none => { w with status := Status.nullDeref }
  | some p =>
    let dSize := X.dumpWrapperSize w.heap c.fileName p
    let w1 := emit (Event.dumpWrapper c.fileName p) w
    emit (Event.stdout ("Dumped size: " ++ String.mk (fmtlu X.ulongBits dSize)
      ++ " into: " ++ c.fileName ++ "\n")) w1

/-- The method `execute` that `DumpWrapperToFileCommand` inherits. -/
def DumpWrapperToFileCommand.execute {σ : Type} (X : Externals σ)
    (c : DumpWrapperToFileCommand) (ctx : ExeCmdContext) (w : World σ) : World σ :=
  WrapperCommand.execute X (DumpWrapperToFileCommand.wrapperAction X c) c.base ctx w

/-! ## Reading the log -/

/-- The events a run added to the log, given the length of the log before it. -/
def newEvents {σ : Type} (before : World σ) (after : World σ) : List Event :=
  after.log.drop before.log.length

/-- Whether the event is a call of `MappedExe::wrap`. -/
def Event.isWrap : Event → Bool
  | Event.wrap _ => true
  | _ => false

/-- Whether the event is a call of `ExeNodeWrapper::addEntry`. -/
def Event.isAddEntry : Event → Bool
  | Event.addEntry _ _ => true
  | _ => false

/-! ## A small parser library for concrete runs -/

/-- The parser-side state of the example: the child count of the node wrapper,
whether a fill has been written, and how often the wrappers were re-derived. -/
structure ToyHeap where
  children : Nat
  filled : Bool
  wraps : Nat
deriving DecidableEq

/-- Read one number from the console input; `0` when there is none. -/
def toyRead (input : List Nat) : Nat × List Nat :=
  match input with
  | [] => (0, [])
  | n :: rest => (n, rest)

/-- An example parser library. Executable `1` is a mapped executable with load base
`0x400000` and the three wrappers `100`, `101`, `102`; executable `2` is not mapped.
Wrapper `100` is a node of capacity 10 whose entries are `200`, `201`, ...; the range
of wrapper `102` lies outside the executable, so filling it fails. -/
def toy : Externals ToyHeap where
  INVALID_ADDR := 2 ^ 64 - 1
  ulongBits := 64
  noExeDiagnostic := "No executable selected!\n"
  addrTypeToChar := fun t =>
    match t with
    | addr_type.RAW => 'r'
    | addr_type.RVA => 'v'
    | addr_type.VA => 'V'
  addrTypeToStr := fun t =>
    match t with
    | addr_type.RAW => "raw"
    | addr_type.RVA => "RVA"
    | addr_type.VA => "VA"
  readOffset := fun input _ => toyRead input
  readNumber := fun input _ => toyRead input
  isMappedExe := fun e => e == 1
  isNodeWrapper := fun p => p == 100
  getBitMode := fun _ _ => 32
  getEntryPoint := fun _ _ => 0x1000
  getMappedSize := fun _ _ t =>
    match t with
    | addr_type.RAW => 0x400
    | _ => 0x3000
  getAlignment := fun _ _ t =>
    match t with
    | addr_type.RAW => 0x200
    | _ => 0x1000
  convertAddr := fun _ e offset addrFrom addrTo =>
    if addrFrom = addrTo then offset
    else if e ≠ 1 then 2 ^ 64 - 1
    else
      match addrFrom, addrTo with
      | addr_type.RVA, addr_type.VA =>
        if offset < 0x3000 then offset + 0x400000 else 2 ^ 64 - 1
      | addr_type.VA, addr_type.RVA =>
        if offset < 0x400000 then 2 ^ 64 - 1
        else if offset - 0x400000 < 0x3000 then offset - 0x400000 else 2 ^ 64 - 1
      | _, _ => 2 ^ 64 - 1
  getWrapper := fun _ e id =>
    if e = 1 ∧ 0 ≤ id ∧ id < 3 then some (100 + id.toNat) else none
  wrap := fun h _ => { h with wraps := h.wraps + 1 }
  getExe := fun _ _ => some 1
  fillContent := fun h p _ =>
    if p = 102 then (false, h) else (true, { h with filled := true })
  canAddEntry := fun h _ => decide (h.children < 10)
  addEntry := fun h _ _ =>
    if h.children < 10 then (true, { h with children := h.children + 1 }) else (false, h)
  getEntryAt := fun h _ index => if index < h.children then some (200 + index) else none
  dumpWrapperSize := fun _ _ _ => 16
  dumpExeSize := fun _ _ _ => 0x400

/-- The example state at the start of a session: two entries in the node, nothing
typed yet, nothing logged. -/
def toyWorld (input : List Nat) : World ToyHeap :=
  { heap := { children := 2, filled := false, wraps := 0 }
    input := input
    log := []
    status := Status.running }

/-- The example state with the node wrapper full: ten entries. -/
def toyWorldFull (input : List Nat) : World ToyHeap :=
  { heap := { children := 10, filled := false, wraps := 0 }
    input := input
    log := []
    status := Status.running }

/-- The context with the mapped executable `1` selected. -/
def toyCtx : ExeCmdContext := ExeCmdContext.new.setExe (some 1)

/-- The example parser library on a platform whose `unsigned long` has `bits` bits,
with an executable that reports the size `2 ^ 40` for every address kind. -/
def toyBig (bits : Nat) : Externals ToyHeap :=
  { toy with ulongBits := bits, getMappedSize := fun _ _ _ => 2 ^ 40 }

/-- An example store of contexts: one fresh context, at address `7`. -/
def toyStore : CtxStore := fun p => if p = 7 then some ExeCmdContext.new else none

/-! ## Lemmas on the log -/

theorem newEvents_self {σ : Type} (w : World σ) : newEvents w w = [] := by
  simp [newEvents]

theorem emit_heap {σ : Type} (e : Event) (w : World σ) : (emit e w).heap = w.heap := rfl

/-! ## Claims -/

/-- The log after `ClearWrapperCommand::wrapperAction`, case by case. -/
theorem clearWrapper_action_log {σ : Type} (X : Externals σ)
    (wrapper : Option WrapperPtr) (w : World σ) :
    newEvents w (ClearWrapperCommand.wrapperAction X wrapper w) =
      match wrapper with
      | none => []
      | some p =>
        if (X.fillContent w.heap p 0).1 then
          match X.getExe (X.fillContent w.heap p 0).2 p with
          | none => [Event.fillContent p 0, Event.stdout "Filled!\n"]
          | some e =>
            if X.isMappedExe e then
              [Event.fillContent p 0, Event.stdout "Filled!\n", Event.wrap e]
            else [Event.fillContent p 0, Event.stdout "Filled!\n"]
        else [Event.fillContent p 0, Event.stdout "Failed to fill...\n"] := by
  cases wrapper with
  | none => simp [ClearWrapperCommand.wrapperAction, newEvents]
  | some p =>
    simp only [ClearWrapperCommand.wrapperAction]
    cases hf : (X.fillContent w.heap p 0).1 with
    | false => simp [newEvents, emit]
    | true =>
      simp only [emit_heap, if_true]
      cases hg : X.getExe (X.fillContent w.heap p 0).2 p with
      | none => simp [newEvents, emit]
      | some e =>
        cases hm : X.isMappedExe e with
        | false => simp [newEvents, emit, hm]
        | true => simp [newEvents, emit, hm]

/-- Claim C1. In `ClearWrapperCommand::wrapperAction`, for every wrapper: when
`fillContent(0)` fails the command prints "Failed to fill..." and logs no call of
`wrap()`; `wrap()` is called at most once; and it is called on an executable `e`
exactly when the wrapper is not null, `fillContent(0)` succeeded, and the owning
executable of the wrapper is `e` and is a `MappedExe`, in which case the call comes
after the fill and the report of its success. -/
theorem ClearWrapperCommand_wrap_only_after_successful_fill {σ : Type} (X : Externals σ)
    (wrapper : Option WrapperPtr) (w : World σ) :
    (∀ p, wrapper = some p → (X.fillContent w.heap p 0).1 = false →
      newEvents w (ClearWrapperCommand.wrapperAction X wrapper w)
        = [Event.fillContent p 0, Event.stdout "Failed to fill...\n"]) ∧
    (newEvents w (ClearWrapperCommand.wrapperAction X wrapper w)).countP Event.isWrap ≤ 1 ∧
    (∀ e, Event.wrap e ∈ newEvents w (ClearWrapperCommand.wrapperAction X wrapper w) ↔
      ∃ p, wrapper = some p ∧ (X.fillContent w.heap p 0).1 = true ∧
        X.getExe (X.fillContent w.heap p 0).2 p = some e ∧ X.isMappedExe e = true) ∧
    (∀ e, Event.wrap e ∈ newEvents w (ClearWrapperCommand.wrapperAction X wrapper w) →
      ∃ p, newEvents w (ClearWrapperCommand.wrapperAction X wrapper w)
        = [Event.fillContent p 0, Event.stdout "Filled!\n", Event.wrap e]) := by
  rw [clearWrapper_action_log]
  cases wrapper with
  | none => simp
  | some p =>
    cases hf : (X.fillContent w.heap p 0).1 with
    | false => simp [Event.isWrap, hf]
    | true =>
      cases hg : X.getExe (X.fillContent w.heap p 0).2 p with
      | none => simp [Event.isWrap, hf, hg]
      | some e =>
        cases hm : X.isMappedExe e with
        | false =>
          simp [Event.isWrap, hf, hg, hm]
        | true =>
          simp [Event.isWrap, hf, hg, hm]
          intro e1
          constructor
          · intro h; subst h; exact ⟨rfl, hm⟩
          · intro h; exact h.1.symm

/-- Claim C1 at a concrete input: filling wrapper `102` of the example fails, and the
command logs the fill and the report of the failure, and nothing else. -/
theorem ClearWrapperCommand_wrap_only_after_successful_fill_witness :
    newEvents (toyWorld []) (ClearWrapperCommand.wrapperAction toy (some 102) (toyWorld []))
      = [Event.fillContent 102 0, Event.stdout "Failed to fill...\n"] :=
  (ClearWrapperCommand_wrap_only_after_successful_fill toy (some 102) (toyWorld [])).1
    102 rfl (by decide)

/-- The log after `AddEntryCommand::wrapperAction`, case by case. -/
theorem addEntry_action_log {σ : Type} (X : Externals σ)
    (wrapper : Option WrapperPtr) (w : World σ) :
    newEvents w (AddEntryCommand.wrapperAction X wrapper w) =
      match wrapper with
      | none => [Event.stderr "Invalid Wrapper\n"]
      | some p =>
        if X.isNodeWrapper p = false then [Event.stderr "This wrapper stores no entries!\n"]
        else if X.canAddEntry w.heap p = false then
          [Event.canAddEntry p, Event.stdout "No space to add entry\n"]
        else if (X.addEntry w.heap p none).1 then
          [Event.canAddEntry p, Event.addEntry p none, Event.stdout "Added!\n"]
        else [Event.canAddEntry p, Event.addEntry p none, Event.stdout "Failed!\n"] := by
  cases wrapper with
  | none => simp [AddEntryCommand.wrapperAction, newEvents, emit]
  | some p =>
    simp only [AddEntryCommand.wrapperAction]
    cases hn : X.isNodeWrapper p with
    | false => simp [newEvents, emit]
    | true =>
      cases hc : X.canAddEntry w.heap p with
      | false => simp [newEvents, emit]
      | true =>
        cases ha : (X.addEntry w.heap p none).1 with
        | false => simp [newEvents, emit, ha]
        | true => simp [newEvents, emit, ha]

/-- The parser-side state after `AddEntryCommand::wrapperAction`: it changes only
through the call of `addEntry`. -/
theorem addEntry_action_heap {σ : Type} (X : Externals σ)
    (wrapper : Option WrapperPtr) (w : World σ) :
    (AddEntryCommand.wrapperAction X wrapper w).heap =
      match wrapper with
      | none => w.heap
      | some p =>
        if X.isNodeWrapper p = true ∧ X.canAddEntry w.heap p = true then
          (X.addEntry w.heap p none).2
        else w.heap := by
  cases wrapper with
  | none => simp [AddEntryCommand.wrapperAction, emit]
  | some p =>
    simp only [AddEntryCommand.wrapperAction]
    cases hn : X.isNodeWrapper p with
    | false => simp [emit]
    | true =>
      cases hc : X.canAddEntry w.heap p with
      | false => simp [emit]
      | true =>
        cases ha : (X.addEntry w.heap p none).1 with
        | false => simp [emit, ha]
        | true => simp [emit, ha]

/-- No run of `AddEntryCommand::wrapperAction` calls `MappedExe::wrap`. -/
theorem addEntry_action_never_wraps {σ : Type} (X : Externals σ)
    (wrapper : Option WrapperPtr) (w : World σ) :
    (newEvents w (AddEntryCommand.wrapperAction X wrapper w)).countP Event.isWrap = 0 := by
  rw [addEntry_action_log]
  cases wrapper with
  | none => simp [Event.isWrap]
  | some p =>
    simp only []
    split_ifs <;> simp [Event.isWrap]

/-- Claim C2, at the input where it fails: on the example, `AddEntryCommand` built for
wrapper `0` adds an entry to the node (the child count goes from 2 to 3, "Added!" is
printed) and returns without a call of `wrap()`; `ClearWrapperCommand` on the same
wrapper does call `wrap()` after its fill. -/
theorem AddEntryCommand_adds_without_wrap :
    (AddEntryCommand.execute toy (AddEntryCommand.new "add" 0) toyCtx (toyWorld [])).log
      = [Event.getWrapper 1 0, Event.canAddEntry 100, Event.addEntry 100 none,
          Event.stdout "Added!\n"] ∧
    (AddEntryCommand.execute toy (AddEntryCommand.new "add" 0) toyCtx (toyWorld [])).heap
      = { children := 3, filled := false, wraps := 0 } ∧
    (AddEntryCommand.execute toy (AddEntryCommand.new "add" 0) toyCtx (toyWorld [])).status
      = Status.running ∧
    (ClearWrapperCommand.execute toy (ClearWrapperCommand.new "clear" 0) toyCtx
      (toyWorld [])).log
      = [Event.getWrapper 1 0, Event.fillContent 100 0, Event.stdout "Filled!\n",
          Event.wrap 1] := by
  decide

/-- Claim C5. In `AddEntryCommand::wrapperAction`, for every wrapper: `addEntry` is
called at most once; it is called, with a null template, exactly when the wrapper is
a node wrapper whose `canAddEntry()` is true; and when the wrapper is null, is not a
node, or `canAddEntry()` is false, the command only prints its message (after the
query `canAddEntry()` in the last case) and leaves the parser-side state as it was. -/
theorem AddEntryCommand_adds_iff_node_with_space {σ : Type} (X : Externals σ)
    (wrapper : Option WrapperPtr) (w : World σ) :
    (newEvents w (AddEntryCommand.wrapperAction X wrapper w)).countP Event.isAddEntry ≤ 1 ∧
    (∀ q t, Event.addEntry q t ∈ newEvents w (AddEntryCommand.wrapperAction X wrapper w) ↔
      (wrapper = some q ∧ t = none ∧ X.isNodeWrapper q = true ∧
        X.canAddEntry w.heap q = true)) ∧
    (wrapper = none →
      newEvents w (AddEntryCommand.wrapperAction X wrapper w)
        = [Event.stderr "Invalid Wrapper\n"] ∧
      (AddEntryCommand.wrapperAction X wrapper w).heap = w.heap) ∧
    (∀ p, wrapper = some p → X.isNodeWrapper p = false →
      newEvents w (AddEntryCommand.wrapperAction X wrapper w)
        = [Event.stderr "This wrapper stores no entries!\n"] ∧
      (AddEntryCommand.wrapperAction X wrapper w).heap = w.heap) ∧
    (∀ p, wrapper = some p → X.isNodeWrapper p = true → X.canAddEntry w.heap p = false →
      newEvents w (AddEntryCommand.wrapperAction X wrapper w)
        = [Event.canAddEntry p, Event.stdout "No space to add entry\n"] ∧
      (AddEntryCommand.wrapperAction X wrapper w).heap = w.heap) := by
  rw [addEntry_action_log, addEntry_action_heap]
  cases wrapper with
  | none => simp [Event.isAddEntry]
  | some p =>
    cases hn : X.isNodeWrapper p with
    | false =>
      simp [Event.isAddEntry, hn]
    | true =>
      cases hc : X.canAddEntry w.heap p with
      | false =>
        simp [Event.isAddEntry, hn, hc]
      | true =>
        cases ha : (X.addEntry w.heap p none).1 with
        | false =>
          simp [Event.isAddEntry, hn, hc, ha]
          intro q t
          constructor
          · rintro ⟨h1, h2⟩; subst h1; subst h2; exact ⟨rfl, rfl, hn, hc⟩
          · rintro ⟨h1, h2, _, _⟩; exact ⟨h1.symm, h2⟩
        | true =>
          simp [Event.isAddEntry, hn, hc, ha]
          intro q t
          constructor
          · rintro ⟨h1, h2⟩; subst h1; subst h2; exact ⟨rfl, rfl, hn, hc⟩
          · rintro ⟨h1, h2, _, _⟩; exact ⟨h1.symm, h2⟩

/-- Claim C5 at a concrete input: the node of the example holds ten entries, so
`canAddEntry()` is false; the command prints "No space to add entry" and the state,
with its ten entries, is unchanged. -/
theorem AddEntryCommand_adds_iff_node_with_space_witness :
    newEvents (toyWorldFull []) (AddEntryCommand.wrapperAction toy (some 100) (toyWorldFull []))
        = [Event.canAddEntry 100, Event.stdout "No space to add entry\n"] ∧
      (AddEntryCommand.wrapperAction toy (some 100) (toyWorldFull [])).heap
        = (toyWorldFull []).heap :=
  (AddEntryCommand_adds_iff_node_with_space toy (some 100) (toyWorldFull [])).2.2.2.2
    100 rfl (by decide) (by decide)

/-- A context that yields a mapped executable has that executable selected. -/
theorem getExeFromContext_of_mapped {σ : Type} (X : Externals σ) (ctx : ExeCmdContext)
    (e : ExePtr) (h : getMappedExeFromContext X ctx = some e) :
    getExeFromContext ctx = some e := by
  unfold getMappedExeFromContext at h
  cases hg : getExeFromContext ctx with
  | none => simp [hg] at h
  | some e0 =>
    simp only [hg] at h
    by_cases hm : X.isMappedExe e0 = true
    · simp [hm] at h
      rw [h]
    · simp [hm] at h

/-- The run of `WrapperCommand::execute` on a selected executable that is not a
`MappedExe`: the command returns at once. -/
theorem wrapperCommand_execute_unmapped {σ : Type} (X : Externals σ)
    (act : Option WrapperPtr → World σ → World σ) (c : WrapperCommand)
    (ctx : ExeCmdContext) (w : World σ) (e : ExePtr)
    (hg : getExeFromContext ctx = some e) (h : getMappedExeFromContext X ctx = none) :
    WrapperCommand.execute X act c ctx w = w := by
  simp [WrapperCommand.execute, hg, h]

/-- The run of `WrapperCommand::execute` with a wrapper id other than `-1`. -/
theorem wrapperCommand_execute_explicit {σ : Type} (X : Externals σ)
    (act : Option WrapperPtr → World σ → World σ) (c : WrapperCommand)
    (ctx : ExeCmdContext) (w : World σ) (e : ExePtr)
    (h : getMappedExeFromContext X ctx = some e) (hk : c.wrapperId ≠ -1) :
    WrapperCommand.execute X act c ctx w =
      match X.getWrapper w.heap e c.wrapperId with
      | none => emit (Event.stdout "No such wrapper!\n") (emit (Event.getWrapper e c.wrapperId) w)
      | some p => act (some p) (emit (Event.getWrapper e c.wrapperId) w) := by
  simp [WrapperCommand.execute, getExeFromContext_of_mapped X ctx e h, h, hk]

/-- The run of `WrapperCommand::execute` with the wrapper id `-1`. -/
theorem wrapperCommand_execute_prompt {σ : Type} (X : Externals σ)
    (act : Option WrapperPtr → World σ → World σ) (c : WrapperCommand)
    (ctx : ExeCmdContext) (w : World σ) (e : ExePtr)
    (h : getMappedExeFromContext X ctx = some e) (hk : c.wrapperId = -1) :
    WrapperCommand.execute X act c ctx w =
      match X.getWrapper w.heap e (toInt32 (X.readNumber w.input "wrapperNum").1) with
      | none => emit (Event.stdout "No such wrapper!\n")
          (emit (Event.getWrapper e (toInt32 (X.readNumber w.input "wrapperNum").1))
            (emit (Event.readNumber "wrapperNum")
              { emit (Event.printWrapperNames e) w with
                input := (X.readNumber w.input "wrapperNum").2 }))
      | some p => act (some p)
          (emit (Event.getWrapper e (toInt32 (X.readNumber w.input "wrapperNum").1))
            (emit (Event.readNumber "wrapperNum")
              { emit (Event.printWrapperNames e) w with
                input := (X.readNumber w.input "wrapperNum").2 })) := by
  simp [WrapperCommand.execute, getExeFromContext_of_mapped X ctx e h, h, hk, emit]

/-- The state after `WrapperCommand.resolve` has the parser-side state and the status
it started with. -/
theorem wrapperCommand_resolve_heap {σ : Type} (X : Externals σ) (c : WrapperCommand)
    (e : ExePtr) (w : World σ) :
    (WrapperCommand.resolve X c e w).2.heap = w.heap ∧
    (WrapperCommand.resolve X c e w).2.status = w.status := by
  unfold WrapperCommand.resolve
  by_cases hk : c.wrapperId = -1 <;> simp [hk, emit]

/-- The method `WrapperCommand::execute` in terms of `WrapperCommand.resolve`. -/
theorem wrapperCommand_execute_eq {σ : Type} (X : Externals σ)
    (act : Option WrapperPtr → World σ → World σ) (c : WrapperCommand)
    (ctx : ExeCmdContext) (w : World σ) (e : ExePtr)
    (h : getMappedExeFromContext X ctx = some e) :
    WrapperCommand.execute X act c ctx w =
      match X.getWrapper w.heap e (WrapperCommand.resolve X c e w).1 with
      | none => emit (Event.stdout "No such wrapper!\n") (WrapperCommand.resolve X c e w).2
      | some p => act (some p) (WrapperCommand.resolve X c e w).2 := by
  unfold WrapperCommand.resolve
  by_cases hk : c.wrapperId = -1
  · rw [wrapperCommand_execute_prompt X act c ctx w e h hk]
    simp [hk, emit]
  · rw [wrapperCommand_execute_explicit X act c ctx w e h hk]
    simp [hk, emit]

/-- Claim C4. With a mapped executable `e` in the context, `WrapperCommand::execute`
resolves the wrapper id, printing at most the wrapper names and the prompt, and calls
`getWrapper`. If `getWrapper` finds the wrapper `p`, the run is one call of
`wrapperAction` on `p` in the state reached; if it finds none, the run ends with
"No such wrapper!", whatever `wrapperAction` is, with the parser-side state and the
status unchanged. -/
theorem WrapperCommand_execute_delegates_iff_found {σ : Type} (X : Externals σ)
    (act : Option WrapperPtr → World σ → World σ) (c : WrapperCommand)
    (ctx : ExeCmdContext) (w : World σ) (e : ExePtr)
    (h : getMappedExeFromContext X ctx = some e) :
    (WrapperCommand.resolve X c e w).2.heap = w.heap ∧
    (∀ p, X.getWrapper w.heap e (WrapperCommand.resolve X c e w).1 = some p →
      WrapperCommand.execute X act c ctx w = act (some p) (WrapperCommand.resolve X c e w).2) ∧
    (X.getWrapper w.heap e (WrapperCommand.resolve X c e w).1 = none →
      WrapperCommand.execute X act c ctx w
        = emit (Event.stdout "No such wrapper!\n") (WrapperCommand.resolve X c e w).2 ∧
      (WrapperCommand.execute X act c ctx w).heap = w.heap ∧
      (WrapperCommand.execute X act c ctx w).status = w.status) := by
  refine ⟨(wrapperCommand_resolve_heap X c e w).1, ?_, ?_⟩
  · intro p hp
    rw [wrapperCommand_execute_eq X act c ctx w e h, hp]
  · intro hp
    rw [wrapperCommand_execute_eq X act c ctx w e h, hp]
    exact ⟨rfl, (wrapperCommand_resolve_heap X c e w).1, (wrapperCommand_resolve_heap X c e w).2⟩

/-- Claim C4 at a concrete input: the example has three wrappers, and the command
built for wrapper `5` ends with "No such wrapper!" and an unchanged state. -/
theorem WrapperCommand_execute_delegates_iff_found_witness :
    getMappedExeFromContext toy toyCtx = some 1 ∧
    (WrapperCommand.execute toy (ClearWrapperCommand.wrapperAction toy)
        (WrapperCommand.new "clear" 5) toyCtx (toyWorld [])
      = emit (Event.stdout "No such wrapper!\n")
          (WrapperCommand.resolve toy (WrapperCommand.new "clear" 5) 1 (toyWorld [])).2 ∧
      (WrapperCommand.execute toy (ClearWrapperCommand.wrapperAction toy)
        (WrapperCommand.new "clear" 5) toyCtx (toyWorld [])).heap = (toyWorld []).heap ∧
      (WrapperCommand.execute toy (ClearWrapperCommand.wrapperAction toy)
        (WrapperCommand.new "clear" 5) toyCtx (toyWorld [])).status = (toyWorld []).status) :=
  ⟨by decide,
    (WrapperCommand_execute_delegates_iff_found toy (ClearWrapperCommand.wrapperAction toy)
      (WrapperCommand.new "clear" 5) toyCtx (toyWorld []) 1 (by decide)).2.2 (by decide)⟩

/-- Claim C3. With no executable selected in the context, each command that requires
one (`ConvertAddrCommand`, `FetchCommand`, `ExeInfoCommand`, `SaveExeToFileCommand` and
every wrapper command, whatever its `wrapperAction` and wrapper id) ends at its first
statement, the call of `getExeFromContext`: the run is the diagnostic on the error
stream and nothing else. The log gains that one message and no call on an executable or
a wrapper (no `readOffset`, `convertAddr`, `fetch`, `getWrapper`, `wrapperAction`, dump),
the parser-side state and the console input are untouched, and no null pointer is
dereferenced. -/
theorem commands_without_exe_report_and_do_nothing {σ : Type} (X : Externals σ)
    (ctx : ExeCmdContext) (w : World σ) (h : ctx.getExe = none) :
    (∀ c : ConvertAddrCommand, ConvertAddrCommand.execute X c ctx w = reportNoExe X w) ∧
    (∀ c : FetchCommand, FetchCommand.execute X c ctx w = reportNoExe X w) ∧
    ExeInfoCommand.execute X ctx w = reportNoExe X w ∧
    (∀ c : SaveExeToFileCommand, SaveExeToFileCommand.execute X c ctx w = reportNoExe X w) ∧
    (∀ (act : Option WrapperPtr → World σ → World σ) (c : WrapperCommand),
      WrapperCommand.execute X act c ctx w = reportNoExe X w) ∧
    (∀ c : AddEntryCommand, AddEntryCommand.execute X c ctx w = reportNoExe X w) ∧
    (∀ c : DumpWrapperCommand, DumpWrapperCommand.execute X c ctx w = reportNoExe X w) ∧
    (∀ c : DumpWrapperEntriesCommand,
      DumpWrapperEntriesCommand.execute X c ctx w = reportNoExe X w) ∧
    (∀ c : ClearWrapperCommand, ClearWrapperCommand.execute X c ctx w = reportNoExe X w) ∧
    (∀ c : DumpWrapperToFileCommand,
      DumpWrapperToFileCommand.execute X c ctx w = reportNoExe X w) ∧
    newEvents w (reportNoExe X w) = [Event.stderr X.noExeDiagnostic] ∧
    (reportNoExe X w).heap = w.heap ∧
    (reportNoExe X w).input = w.input ∧
    (reportNoExe X w).status = w.status := by
  have hg : getExeFromContext ctx = none := h
  have hw : ∀ (act : Option WrapperPtr → World σ → World σ) (c : WrapperCommand),
      WrapperCommand.execute X act c ctx w = reportNoExe X w := by
    intro act c
    simp [WrapperCommand.execute, hg]
  refine ⟨?_, ?_, ?_, ?_, hw, ?_, ?_, ?_, ?_, ?_, ?_, rfl, rfl, rfl⟩
  · intro c; simp [ConvertAddrCommand.execute, hg]
  · intro c; simp [FetchCommand.execute, hg]
  · simp [ExeInfoCommand.execute, hg]
  · intro c; simp [SaveExeToFileCommand.execute, hg]
  · intro c; exact hw _ _
  · intro c; exact hw _ _
  · intro c; exact hw _ _
  · intro c; exact hw _ _
  · intro c; exact hw _ _
  · simp [reportNoExe, newEvents, emit]

/-- Claim C3 at a concrete input: on a fresh context, the conversion command of the
example prints the diagnostic and leaves the offset that was typed unread. -/
theorem commands_without_exe_report_and_do_nothing_witness :
    ExeCmdContext.new.getExe = none ∧
    ConvertAddrCommand.execute toy (ConvertAddrCommand.mk "raw to rva" addr_type.RAW
        addr_type.RVA) ExeCmdContext.new (toyWorld [16])
      = reportNoExe toy (toyWorld [16]) ∧
    newEvents (toyWorld [16]) (reportNoExe toy (toyWorld [16]))
      = [Event.stderr toy.noExeDiagnostic] :=
  ⟨rfl,
    (commands_without_exe_report_and_do_nothing toy ExeCmdContext.new (toyWorld [16]) rfl).1
      (ConvertAddrCommand.mk "raw to rva" addr_type.RAW addr_type.RVA),
    (commands_without_exe_report_and_do_nothing toy ExeCmdContext.new
      (toyWorld [16]) rfl).2.2.2.2.2.2.2.2.2.2.1⟩

/-- The run of `ConvertAddrCommand::execute` with an executable in the context. -/
theorem convertAddr_execute_log {σ : Type} (X : Externals σ) (c : ConvertAddrCommand)
    (ctx : ExeCmdContext) (w : World σ) (e : ExePtr) (h : ctx.getExe = some e) :
    newEvents w (ConvertAddrCommand.execute X c ctx w) =
      (if X.convertAddr w.heap e (X.readOffset w.input c.addrFrom).1 c.addrFrom c.addrTo
          = X.INVALID_ADDR then
        [Event.readOffset c.addrFrom,
          Event.convertAddr e (X.readOffset w.input c.addrFrom).1 c.addrFrom c.addrTo,
          Event.stderr "This address cannot be mapped\n"]
      else
        [Event.readOffset c.addrFrom,
          Event.convertAddr e (X.readOffset w.input c.addrFrom).1 c.addrFrom c.addrTo,
          Event.stdout ("[" ++ X.addrTypeToStr c.addrFrom ++ "]\t->\t["
            ++ X.addrTypeToStr c.addrTo ++ "]:\n"),
          Event.stdout (" " ++ String.mk (fmtllX (X.readOffset w.input c.addrFrom).1)
            ++ "\t->\t"
            ++ String.mk (fmtllX (X.convertAddr w.heap e (X.readOffset w.input c.addrFrom).1
                c.addrFrom c.addrTo)) ++ "\n")]) ∧
    (ConvertAddrCommand.execute X c ctx w).heap = w.heap ∧
    (ConvertAddrCommand.execute X c ctx w).status = w.status := by
  have hg : getExeFromContext ctx = some e := h
  simp only [ConvertAddrCommand.execute, hg, emit_heap]
  by_cases hi : X.convertAddr w.heap e (X.readOffset w.input c.addrFrom).1 c.addrFrom c.addrTo
      = X.INVALID_ADDR <;> simp [newEvents, emit, hi]

/-- Claim C6. With an executable in the context, for every offset read and every pair
of kinds, `ConvertAddrCommand::execute` prints to the standard output (the header line
and the line with the two addresses) exactly when `convertAddr` returns a value other
than `INVALID_ADDR`; when it returns `INVALID_ADDR` the command writes "This address
cannot be mapped" to the error stream and nothing else; either way it returns normally,
with the parser-side state unchanged. -/
theorem ConvertAddrCommand_prints_result_iff_valid {σ : Type} (X : Externals σ)
    (c : ConvertAddrCommand) (ctx : ExeCmdContext) (w : World σ) (e : ExePtr)
    (h : ctx.getExe = some e) :
    ((∃ s, Event.stdout s ∈ newEvents w (ConvertAddrCommand.execute X c ctx w)) ↔
      X.convertAddr w.heap e (X.readOffset w.input c.addrFrom).1 c.addrFrom c.addrTo
        ≠ X.INVALID_ADDR) ∧
    (X.convertAddr w.heap e (X.readOffset w.input c.addrFrom).1 c.addrFrom c.addrTo
        = X.INVALID_ADDR →
      newEvents w (ConvertAddrCommand.execute X c ctx w) =
        [Event.readOffset c.addrFrom,
          Event.convertAddr e (X.readOffset w.input c.addrFrom).1 c.addrFrom c.addrTo,
          Event.stderr "This address cannot be mapped\n"]) ∧
    (X.convertAddr w.heap e (X.readOffset w.input c.addrFrom).1 c.addrFrom c.addrTo
        ≠ X.INVALID_ADDR →
      newEvents w (ConvertAddrCommand.execute X c ctx w) =
        [Event.readOffset c.addrFrom,
          Event.convertAddr e (X.readOffset w.input c.addrFrom).1 c.addrFrom c.addrTo,
          Event.stdout ("[" ++ X.addrTypeToStr c.addrFrom ++ "]\t->\t["
            ++ X.addrTypeToStr c.addrTo ++ "]:\n"),
          Event.stdout (" " ++ String.mk (fmtllX (X.readOffset w.input c.addrFrom).1)
            ++ "\t->\t"
            ++ String.mk (fmtllX (X.convertAddr w.heap e (X.readOffset w.input c.addrFrom).1
                c.addrFrom c.addrTo)) ++ "\n")]) ∧
    (ConvertAddrCommand.execute X c ctx w).heap = w.heap ∧
    (ConvertAddrCommand.execute X c ctx w).status = w.status := by
  obtain ⟨hl, hh, hs⟩ := convertAddr_execute_log X c ctx w e h
  rw [hl]
  refine ⟨?_, ?_, ?_, hh, hs⟩
  · split_ifs with hi <;> simp [hi]
  · intro hi; simp [hi]
  · intro hi; simp [hi]

/-- Claim C6 at a concrete input: on the example, with load base `0x400000`, the RVA
`0x1000` is printed as converted to the VA `0x401000`. -/
theorem ConvertAddrCommand_prints_result_iff_valid_witness :
    toyCtx.getExe = some 1 ∧
    newEvents (toyWorld [0x1000])
      (ConvertAddrCommand.execute toy (ConvertAddrCommand.mk "rva to va" addr_type.RVA
        addr_type.VA) toyCtx (toyWorld [0x1000])) =
      [Event.readOffset addr_type.RVA,
        Event.convertAddr 1 0x1000 addr_type.RVA addr_type.VA,
        Event.stdout "[RVA]\t->\t[VA]:\n",
        Event.stdout " 1000\t->\t401000\n"] :=
  ⟨rfl, (ConvertAddrCommand_prints_result_iff_valid toy (ConvertAddrCommand.mk "rva to va"
    addr_type.RVA addr_type.VA) toyCtx (toyWorld [0x1000]) 1 rfl).2.2.1 (by decide)⟩

/-- The constructor of `DumpWrapperEntriesCommand` leaves the wrapper id of the base
class at its default `-1`, whatever id it is given; the constructors of the other four
wrapper commands hand the id to the base class. -/
theorem wrapper_command_constructors (desc : String) (k : Int) :
    (DumpWrapperEntriesCommand.new desc k).base.wrapperId = -1 ∧
    (DumpWrapperEntriesCommand.new desc k).wrapperId = k ∧
    (AddEntryCommand.new desc k).base.wrapperId = k ∧
    (DumpWrapperCommand.new desc k).base.wrapperId = k ∧
    (ClearWrapperCommand.new desc k).base.wrapperId = k ∧
    (DumpWrapperToFileCommand.new desc k).base.wrapperId = k :=
  ⟨rfl, rfl, rfl, rfl, rfl, rfl⟩

/-- A wrapper command whose base class holds an id other than `-1` resolves it with
one call of `getWrapper` on that id, without a prompt. -/
theorem wrapperCommand_resolve_explicit {σ : Type} (X : Externals σ) (c : WrapperCommand)
    (e : ExePtr) (w : World σ) (hk : c.wrapperId ≠ -1) :
    WrapperCommand.resolve X c e w
      = (c.wrapperId, emit (Event.getWrapper e c.wrapperId) w) := by
  simp [WrapperCommand.resolve, hk]

/-- Claim C7, at the input where it fails: on the example, `DumpWrapperEntriesCommand`
constructed with the wrapper id `2` prints the wrapper names, prompts for a wrapper
number and resolves `getWrapper(0)` from the `0` that was typed, not `getWrapper(2)`;
`DumpWrapperCommand` constructed with the id `2` resolves `getWrapper(2)` and does not
prompt. -/
theorem DumpWrapperEntriesCommand_prompts_despite_explicit_id :
    (DumpWrapperEntriesCommand.execute toy (DumpWrapperEntriesCommand.new "entries" 2) toyCtx
      (toyWorld [0, 1])).log
      = [Event.printWrapperNames 1, Event.readNumber "wrapperNum", Event.getWrapper 1 0,
          Event.dumpEntryInfo (some 100), Event.stdout "Dump subentries of Index: ",
          Event.scanfUnsigned, Event.getEntryAt 100 1, Event.dumpEntryInfo (some 201),
          Event.dumpNodeInfo (some 201)] ∧
    (DumpWrapperCommand.execute toy (DumpWrapperCommand.new "dump" 2) toyCtx
      (toyWorld [0, 1])).log
      = [Event.getWrapper 1 2, Event.dumpEntryInfo (some 102), Event.dumpNodeInfo none] := by
  decide

/-- The log of `DumpWrapperEntriesCommand::wrapperAction` on a node wrapper: the
result of `getEntryAt` goes to both dump routines as it is. -/
theorem dumpWrapperEntries_action_node_log {σ : Type} (X : Externals σ)
    (p : WrapperPtr) (w : World σ) (hn : X.isNodeWrapper p = true) :
    newEvents w (DumpWrapperEntriesCommand.wrapperAction X (some p) w) =
      [Event.dumpEntryInfo (some p), Event.stdout "Dump subentries of Index: ",
        Event.scanfUnsigned, Event.getEntryAt p (scanfUnsigned w.input).1,
        Event.dumpEntryInfo (X.getEntryAt w.heap p (scanfUnsigned w.input).1),
        Event.dumpNodeInfo (X.getEntryAt w.heap p (scanfUnsigned w.input).1)] := by
  simp [DumpWrapperEntriesCommand.wrapperAction, hn, newEvents, emit]

/-- Claim C8, at the input where it fails: the node of the example has two entries and
the index `7` is typed; `getEntryAt(7)` finds no entry, and the command calls
`dumpEntryInfo` and `dumpNodeInfo` with the null pointer, without a message about the
entry. -/
theorem DumpWrapperEntriesCommand_dumps_absent_entry :
    toy.getEntryAt (toyWorld [7]).heap 100 7 = none ∧
    (DumpWrapperEntriesCommand.wrapperAction toy (some 100) (toyWorld [7])).log
      = [Event.dumpEntryInfo (some 100), Event.stdout "Dump subentries of Index: ",
          Event.scanfUnsigned, Event.getEntryAt 100 7, Event.dumpEntryInfo none,
          Event.dumpNodeInfo none] := by
  decide

/-- Claim C9. A fresh `ExeCmdContext` holds no executable; `getExe` after `setExe(e)`
returns `e`, and the last of two `setExe` wins; `ExeCommander` keeps the one context
pointer it was built with, and on a live context at `p`, `ExeCommander::setExe(e)`
succeeds and leaves at `p` a context whose `getExe` returns `e`, with every other
context untouched. -/
theorem ExeCmdContext_holds_selected_exe :
    ExeCmdContext.new.getExe = none ∧
    (∀ (c : ExeCmdContext) (e : Option ExePtr), (c.setExe e).getExe = e) ∧
    (∀ (c : ExeCmdContext) (e1 e2 : Option ExePtr), ((c.setExe e1).setExe e2).getExe = e2) ∧
    (∀ (v : Option CtxPtr), (ExeCommander.new v).exeContext = v ∧
      (ExeCommander.new v).context = v) ∧
    (∀ (store : CtxStore) (p : CtxPtr) (ctx : ExeCmdContext) (e : Option ExePtr),
      store p = some ctx →
      ∃ store1, (ExeCommander.new (some p)).setExe e store = some store1 ∧
        Option.map ExeCmdContext.getExe (store1 p) = some e ∧
        ∀ q, q ≠ p → store1 q = store q) := by
  refine ⟨rfl, fun _ _ => rfl, fun _ _ _ => rfl, fun _ => ⟨rfl, rfl⟩, ?_⟩
  intro store p ctx e h
  refine ⟨Function.update store p (some (ctx.setExe e)), ?_, ?_, ?_⟩
  · simp [ExeCommander.setExe, ExeCommander.new, h]
  · simp [ExeCmdContext.setExe, ExeCmdContext.getExe]
  · intro q hq
    simp [Function.update, hq]

/-- Claim C9 at a concrete input: the commander built on the fresh context at address
`7` selects executable `1`, and the context at `7` then returns it. -/
theorem ExeCmdContext_holds_selected_exe_witness :
    ∃ store1, (ExeCommander.new (some 7)).setExe (some 1) toyStore = some store1 ∧
      Option.map ExeCmdContext.getExe (store1 7) = some (some 1) ∧
      ∀ q, q ≠ 7 → store1 q = toyStore q :=
  ExeCmdContext_holds_selected_exe.2.2.2.2 toyStore 7 ExeCmdContext.new (some 1) rfl

/-! ### The hexadecimal conversion -/

theorem hexDigitValue_hexDigit (d : Nat) (h : d < 16) : hexDigitValue (hexDigit d) = d := by
  interval_cases d <;> decide

theorem hexValue_hexAux (fuel : Nat) :
    ∀ (n : Nat) (acc : List Char), n < fuel →
      List.foldl (fun a c => 16 * a + hexDigitValue c) 0 (hexAux fuel n acc)
        = List.foldl (fun a c => 16 * a + hexDigitValue c) n acc := by
  induction fuel with
  | zero => intro n acc h; omega
  | succ fuel ih =>
    intro n acc h
    unfold hexAux
    by_cases hn : n < 16
    · simp [hn, hexDigitValue_hexDigit n hn]
    · simp only [hn, if_false]
      have h1 : n / 16 < fuel := by omega
      rw [ih (n / 16) _ h1]
      have h2 : n % 16 < 16 := Nat.mod_lt n (by decide)
      simp only [List.foldl_cons, hexDigitValue_hexDigit (n % 16) h2]
      have h3 : 16 * (n / 16) + n % 16 = n := Nat.div_add_mod n 16
      rw [h3]

/-- The digits `%X` prints read back as the number printed. -/
theorem hexValue_hexUpper (n : Nat) : hexValue (hexUpper n) = n := by
  unfold hexValue hexUpper
  rw [hexValue_hexAux (n + 1) n [] (Nat.lt_succ_self n)]
  rfl

theorem hexAux_length_le (fuel : Nat) :
    ∀ (n k : Nat) (acc : List Char), n < fuel → n < 16 ^ (k + 1) →
      (hexAux fuel n acc).length ≤ k + 1 + acc.length := by
  induction fuel with
  | zero => intro n k acc h; omega
  | succ fuel ih =>
    intro n k acc h hk
    unfold hexAux
    by_cases hn : n < 16
    · simp only [hn, if_true, List.length_cons]
      omega
    · simp only [hn, if_false]
      cases k with
      | zero => simp at hk; omega
      | succ k =>
        have h1 : n / 16 < fuel := by omega
        have h2 : n / 16 < 16 ^ (k + 1) := by
          rw [Nat.div_lt_iff_lt_mul (by decide)]
          calc n < 16 ^ (k + 1 + 1) := hk
            _ = 16 ^ (k + 1) * 16 := by ring
        have := ih (n / 16) k (hexDigit (n % 16) :: acc) h1 h2
        simp only [List.length_cons] at this
        omega

theorem hexAux_length_ge (fuel : Nat) :
    ∀ (n k : Nat) (acc : List Char), n < fuel → 16 ^ k ≤ n →
      k + 1 + acc.length ≤ (hexAux fuel n acc).length := by
  induction fuel with
  | zero => intro n k acc h; omega
  | succ fuel ih =>
    intro n k acc h hk
    unfold hexAux
    by_cases hn : n < 16
    · simp only [hn, if_true, List.length_cons]
      cases k with
      | zero => omega
      | succ k =>
        have : 16 ^ 1 ≤ 16 ^ (k + 1) := Nat.pow_le_pow_right (by decide) (by omega)
        omega
    · simp only [hn, if_false]
      cases k with
      | zero =>
        have h1 : n / 16 < fuel := by omega
        have := ih (n / 16) 0 (hexDigit (n % 16) :: acc) h1 (by simp; omega)
        simp only [List.length_cons] at this
        omega
      | succ k =>
        have h1 : n / 16 < fuel := by omega
        have h2 : 16 ^ k ≤ n / 16 := by
          rw [Nat.le_div_iff_mul_le (by decide)]
          calc 16 ^ k * 16 = 16 ^ (k + 1) := by ring
            _ ≤ n := hk
        have := ih (n / 16) k (hexDigit (n % 16) :: acc) h1 h2
        simp only [List.length_cons] at this
        omega

/-- The conversion `%X` prints at most ten digits exactly for the numbers below `16 ^ 10`. -/
theorem hexUpper_length_le_ten (n : Nat) : (hexUpper n).length ≤ 10 ↔ n < 16 ^ 10 := by
  unfold hexUpper
  constructor
  · intro h
    by_contra hc
    have := hexAux_length_ge (n + 1) n 10 [] (Nat.lt_succ_self n) (by omega)
    simp at this
    omega
  · intro h
    have := hexAux_length_le (n + 1) n 9 [] (Nat.lt_succ_self n) h
    simpa using this

theorem padLeft_length (width : Nat) (s : List Char) :
    (padLeft width s).length = max width s.length := by
  simp [padLeft]
  omega

/-- The log of `ExeInfoCommand::execute` with an executable in the context. -/
theorem exeInfo_execute_log {σ : Type} (X : Externals σ) (ctx : ExeCmdContext)
    (w : World σ) (e : ExePtr) (h : ctx.getExe = some e) :
    newEvents w (ExeInfoCommand.execute X ctx w) =
      [Event.getBitMode e,
        Event.stdout ("Bit mode: \t" ++ String.mk (fmt10d (X.getBitMode w.heap e)) ++ "\n"),
        Event.getEntryPoint e,
        Event.stdout ("Entry point: \t[" ++ String.mk (fmt10llX (X.getEntryPoint w.heap e))
          ++ " " ++ String.mk [X.addrTypeToChar addr_type.RVA] ++ "]\n"),
        Event.getMappedSize e addr_type.RAW,
        Event.stdout ("Raw size: \t["
          ++ String.mk (fmt10lX X.ulongBits (X.getMappedSize w.heap e addr_type.RAW)) ++ "]\n"),
        Event.getAlignment e addr_type.RAW,
        Event.stdout ("Raw align.: \t["
          ++ String.mk (fmt10lX X.ulongBits (X.getAlignment w.heap e addr_type.RAW)) ++ "]\n"),
        Event.getMappedSize e addr_type.RVA,
        Event.stdout ("Virtual size: \t["
          ++ String.mk (fmt10lX X.ulongBits (X.getMappedSize w.heap e addr_type.RVA)) ++ "]\n"),
        Event.getAlignment e addr_type.RVA,
        Event.stdout ("Virtual align.:\t["
          ++ String.mk (fmt10lX X.ulongBits (X.getAlignment w.heap e addr_type.RVA)) ++ "]\n")]
      ++ (if X.isMappedExe e then [Event.stdout "Contains:\n", Event.printWrapperNames e]
          else []) := by
  have hg : getExeFromContext ctx = some e := h
  simp only [ExeInfoCommand.execute, getMappedExeFromContext, hg]
  cases hm : X.isMappedExe e <;> simp [newEvents, emit]

/-- Claim C10 as it is stated fails at the size `2 ^ 40`. Where `unsigned long` has 64
bits, `ExeInfoCommand` prints it as `10000000000`, a field of 11 characters; where it
has 32 bits, the command prints a field of 10 characters that reads `0`. -/
theorem ExeInfoCommand_fixed_width_counterexample :
    (toyBig 64).getMappedSize (toyWorld []).heap 1 addr_type.RAW = 2 ^ 40 ∧
    Event.stdout "Raw size: \t[10000000000]\n"
      ∈ (ExeInfoCommand.execute (toyBig 64) toyCtx (toyWorld [])).log ∧
    (fmt10lX 64 (2 ^ 40)).length = 11 ∧
    Event.stdout "Raw size: \t[         0]\n"
      ∈ (ExeInfoCommand.execute (toyBig 32) toyCtx (toyWorld [])).log ∧
    fmt10lX 32 (2 ^ 40) = [' ', ' ', ' ', ' ', ' ', ' ', ' ', ' ', ' ', '0'] := by
  decide

/-- Claim C10, amended. With an executable in the context, `ExeInfoCommand` prints the
four size and alignment lines with the conversion `%10lX` of the value cast to
`unsigned long`, and the entry point with `%10llX`, followed by a blank and the
one-letter code of the RVA kind. For every value that fits `unsigned long`, the field
is the exact upper-case hexadecimal representation of the value, right-aligned behind
blanks in a field of at least 10 characters, which is exactly 10 characters wide
precisely when the value is below `16 ^ 10`; the same holds of the entry point for
every 64-bit value. -/
theorem ExeInfoCommand_reports_padded_hex {σ : Type} (X : Externals σ) (ctx : ExeCmdContext)
    (w : World σ) (e : ExePtr) (h : ctx.getExe = some e) :
    (Event.stdout ("Raw size: \t["
        ++ String.mk (fmt10lX X.ulongBits (X.getMappedSize w.heap e addr_type.RAW)) ++ "]\n")
      ∈ newEvents w (ExeInfoCommand.execute X ctx w) ∧
    Event.stdout ("Raw align.: \t["
        ++ String.mk (fmt10lX X.ulongBits (X.getAlignment w.heap e addr_type.RAW)) ++ "]\n")
      ∈ newEvents w (ExeInfoCommand.execute X ctx w) ∧
    Event.stdout ("Virtual size: \t["
        ++ String.mk (fmt10lX X.ulongBits (X.getMappedSize w.heap e addr_type.RVA)) ++ "]\n")
      ∈ newEvents w (ExeInfoCommand.execute X ctx w) ∧
    Event.stdout ("Virtual align.:\t["
        ++ String.mk (fmt10lX X.ulongBits (X.getAlignment w.heap e addr_type.RVA)) ++ "]\n")
      ∈ newEvents w (ExeInfoCommand.execute X ctx w) ∧
    Event.stdout ("Entry point: \t[" ++ String.mk (fmt10llX (X.getEntryPoint w.heap e))
        ++ " " ++ String.mk [X.addrTypeToChar addr_type.RVA] ++ "]\n")
      ∈ newEvents w (ExeInfoCommand.execute X ctx w)) ∧
    (∀ v, v < 2 ^ X.ulongBits →
      fmt10lX X.ulongBits v
        = List.replicate (10 - (hexUpper v).length) ' ' ++ hexUpper v ∧
      hexValue (hexUpper v) = v ∧
      10 ≤ (fmt10lX X.ulongBits v).length ∧
      ((fmt10lX X.ulongBits v).length = 10 ↔ v < 16 ^ 10)) ∧
    (∀ v, v < 2 ^ 64 →
      fmt10llX v = List.replicate (10 - (hexUpper v).length) ' ' ++ hexUpper v ∧
      hexValue (hexUpper v) = v ∧
      10 ≤ (fmt10llX v).length ∧
      ((fmt10llX v).length = 10 ↔ v < 16 ^ 10)) := by
  refine ⟨?_, ?_, ?_⟩
  · rw [exeInfo_execute_log X ctx w e h]
    simp
  · intro v hv
    have hlen := hexUpper_length_le_ten v
    have hp := padLeft_length 10 (hexUpper v)
    simp only [fmt10lX, Nat.mod_eq_of_lt hv]
    refine ⟨rfl, hexValue_hexUpper v, by omega, ?_⟩
    rw [← hlen]
    omega
  · intro v hv
    have hlen := hexUpper_length_le_ten v
    have hp := padLeft_length 10 (hexUpper v)
    simp only [fmt10llX, Nat.mod_eq_of_lt hv]
    refine ⟨rfl, hexValue_hexUpper v, by omega, ?_⟩
    rw [← hlen]
    omega

/-- Claim C10, amended, at a concrete input: the raw size `0x400` of the example is
printed as `400` behind seven blanks. -/
theorem ExeInfoCommand_reports_padded_hex_witness :
    toyCtx.getExe = some 1 ∧
    Event.stdout ("Raw size: \t["
        ++ String.mk (fmt10lX toy.ulongBits (toy.getMappedSize (toyWorld []).heap 1 addr_type.RAW))
        ++ "]\n")
      ∈ newEvents (toyWorld []) (ExeInfoCommand.execute toy toyCtx (toyWorld [])) ∧
    fmt10lX toy.ulongBits 0x400 = [' ', ' ', ' ', ' ', ' ', ' ', ' ', '4', '0', '0'] :=
  ⟨rfl, (ExeInfoCommand_reports_padded_hex toy toyCtx (toyWorld []) 1 rfl).1.1, by decide⟩

end BearParser
